import Mathlib

/-!
Shallow embedding of the transactional file-reorganization engine in
`src/organizer.py` (class `FileOrganizer`).

Modelling conventions:
- The filesystem is an association list from absolute path strings to file
  contents.  Directories are tracked separately as a list of created
  directory paths (`mkdir` only records the leaf that the code creates).
- Each call to `datetime.now()` is modelled by reading an abstract clock
  `clock : Nat -> String` at the current tick and incrementing the tick,
  so distinct `now()` call sites observe possibly distinct timestamps.
- `shutil.copy2` / `shutil.move` / `open(...,'w')` may fail; failure
  injection is modelled by a list `fp` of fault paths: any write whose
  destination is listed there raises.  Exceptions are modelled with
  `Except`, and the `try/except` blocks of the source become matches on
  the `Except` value.
- The journal (`file_organization_log.json`) is a file in the modelled
  filesystem whose content is either structured log data (a successfully
  written JSON document), opaque text, or an unparsable blob; `json.load`
  succeeds exactly on structured log data.
- Python floats (confidence values) are modelled with `Rat`; `round(x, 2)`
  is modelled by round-half-to-even at two decimal places.
-/

namespace FOA

/-- Configuration slice read by `FileOrganizer.__init__`:
`create_backup` and the category names of `organization.categories`. -/
structure Config where
  create_backup : Bool
  categories : List String
deriving Repr, DecidableEq

/-- One analysis result consumed by `organize_files` (the external
suggestion record): optional fields model Python `dict.get` defaults. -/
structure AnalysisResult where
  file_path : String
  category : Option String := none
  suggested_name : Option String := none
  confidence : Option Rat := none
  reason : Option String := none
  error : Option String := none
deriving Repr, DecidableEq

/-- The operation dictionary built by `_plan_file_operation`, plus the
`executed` / `execution_error` keys set later. -/
structure Operation where
  source_path : String
  target_path : String
  backup_path : Option String
  original_name : String
  suggested_name : String
  category : String
  reason : String
  confidence : Rat
  operation_type : String
  executed : Bool := false
  execution_error : Option String := none
deriving Repr, DecidableEq

/-- An entry of the `errors` lists (both in organize and in undo). -/
structure ErrorEntry where
  file : String
  error : String
deriving Repr, DecidableEq

/-- The summary dictionary built by `_generate_summary`. -/
structure Summary where
  total_files : Nat
  successful_operations : Nat
  failed_operations : Nat
  errors : Nat
  category_distribution : List (String × Nat)
  average_confidence : Rat
  preview_mode : Bool
  timestamp : String
deriving Repr, DecidableEq

/-- The journal document written by `_save_operation_log`. -/
structure LogData where
  timestamp : String
  target_directory : String
  operations : List Operation
  errors : List ErrorEntry
  summary : Summary
deriving Repr, DecidableEq

/-- Content of a file in the modelled filesystem.  `log` is a journal that
`json.load` parses back; `text` and `badLog` both fail to parse as a
journal document. -/
inductive FileContent where
  | text (s : String)
  | log (d : LogData)
  | badLog
deriving Repr, DecidableEq

/-- The filesystem: association list path -> content. -/
abbrev Fs := List (String × FileContent)

/-- Mutable world state threaded through the engine: files, created
directories, and the clock tick (number of `datetime.now()` calls so far). -/
structure St where
  fs : Fs
  dirs : List String
  tick : Nat
deriving Repr, DecidableEq

/-- Return value of `organize_files`. -/
structure OrganizeResult where
  operations : List Operation
  errors : List ErrorEntry
  summary : Summary
deriving Repr, DecidableEq

/-- Return value of `undo_last_operation` (all key sets merged into one
record; absent keys keep their defaults). -/
structure UndoResult where
  success : Bool
  restored_files : Nat := 0
  errors : List ErrorEntry := []
  message : String := ""
deriving Repr, DecidableEq

/-! ### Path helpers (pathlib semantics on slash-separated strings) -/

/-- Characters after the last occurrence of `sep` (the whole list if `sep`
does not occur). -/
def takeAfterLastSep (sep : Char) (l : List Char) : List Char :=
  (l.reverse.takeWhile (fun c => c ≠ sep)).reverse

/-- Characters strictly before the last occurrence of `sep` (empty if
`sep` does not occur). -/
def dropAfterLastSep (sep : Char) (l : List Char) : List Char :=
  let name := l.reverse.takeWhile (fun c => c ≠ sep)
  (l.reverse.drop (name.length + 1)).reverse

/-- `Path(p).name`: the final path component. -/
def pathName (p : String) : String :=
  String.mk (takeAfterLastSep '/' p.data)

/-- `Path(p).parent` rendered as a string (for the paths the engine
builds, which always contain a slash). -/
def pathParent (p : String) : String :=
  String.mk (dropAfterLastSep '/' p.data)

/-- `parent / name` for pathlib path joining. -/
def pathJoin (p n : String) : String := p ++ "/" ++ n

/-- CPython `PurePath` stem/suffix split of a file name: the last dot at
index i with 0 < i < len-1 splits the name; otherwise suffix is empty. -/
def pySplitExt (name : List Char) : List Char × List Char :=
  let afterDot := name.reverse.takeWhile (fun c => c ≠ '.')
  if afterDot.length = name.length then (name, [])
  else
    let i := name.length - afterDot.length - 1
    if 0 < i ∧ i < name.length - 1 then (name.take i, name.drop i)
    else (name, [])

/-- `Path(p).stem`. -/
def pyStem (p : String) : String :=
  String.mk (pySplitExt (takeAfterLastSep '/' p.data)).1

/-- `Path(p).suffix`. -/
def pySuffix (p : String) : String :=
  String.mk (pySplitExt (takeAfterLastSep '/' p.data)).2

/-- Python format `{n:03d}`: zero-pad to at least three digits. -/
def fmt3 (n : Nat) : String :=
  if n < 10 then "00" ++ toString n
  else if n < 100 then "0" ++ toString n
  else toString n

/-! ### Filesystem primitives -/

/-- Look a path up in the filesystem. -/
def fsGet : Fs → String → Option FileContent
  | [], _ => none
  | (k, v) :: rest, p => if k = p then some v else fsGet rest p

/-- Remove a path from the filesystem. -/
def fsRemoveKey : Fs → String → Fs
  | [], _ => []
  | (k, v) :: rest, p =>
      if k = p then fsRemoveKey rest p else (k, v) :: fsRemoveKey rest p

/-- Write a path (create or overwrite). -/
def fsSet (fs : Fs) (k : String) (v : FileContent) : Fs :=
  (k, v) :: fsRemoveKey fs k

/-- `Path(p).exists()` restricted to files, which is all the engine ever
checks for. -/
def fsExists (fs : Fs) (p : String) : Bool :=
  (fsGet fs p).isSome

/-- `mkdir(parents=True, exist_ok=True)`: record the created directory. -/
def addDir (dirs : List String) (d : String) : List String :=
  if d ∈ dirs then dirs else dirs ++ [d]

/-- `shutil.copy2(src, dst)`: raises if the source is missing or the
destination write faults; otherwise writes the source content at `dst`. -/
def copy2 (fp : List String) (fs : Fs) (src dst : String) :
    Except String Fs :=
  match fsGet fs src with
  | none => .error "copy failed"
  | some c =>
      if dst ∈ fp then .error "copy failed"
      else .ok (fsSet fs dst c)

/-- `shutil.move(src, dst)`: raises if the source is missing or the
destination write faults; otherwise relocates the content (overwriting an
existing destination file, POSIX rename semantics). -/
def moveFile (fp : List String) (fs : Fs) (src dst : String) :
    Except String Fs :=
  match fsGet fs src with
  | none => .error "move failed"
  | some c =>
      if dst ∈ fp then .error "move failed"
      else .ok (fsSet (fsRemoveKey fs src) dst c)

/-! ### The engine (`FileOrganizer`) -/

/-- The while loop of `_resolve_name_conflict`, with fuel (the source loop
terminates because the filesystem is finite; fuel is sized by the caller
so that it never runs out on reachable inputs). -/
def resolveLoop (fs : Fs) (parent base ext : String) :
    String → Nat → Nat → String
  | current, _, 0 => current
  | current, counter, fuel + 1 =>
      if fsExists fs current then
        resolveLoop fs parent base ext
          (pathJoin parent (base ++ "_" ++ fmt3 counter ++ ext))
          (counter + 1) fuel
      else current

/-- `_resolve_name_conflict`: append `_<counter:03d>` to the stem until an
unused path is found, counting from 1. -/
def resolveNameConflict (fs : Fs) (targetPath : String) : String :=
  resolveLoop fs (pathParent targetPath) (pyStem targetPath)
    (pySuffix targetPath) targetPath 1 (fs.length + 1)

/-- `_plan_file_operation`: build the operation dictionary for one
analysis result.  Reads the filesystem (conflict check) and the clock
(backup timestamp) but never writes; returns the new tick. -/
def planFileOperation (cfg : Config) (clock : Nat → String) (fs : Fs)
    (tick : Nat) (r : AnalysisResult) (targetDir : String) :
    Operation × Nat :=
  let sourcePath := r.file_path
  let category := r.category.getD "others"
  let suggested := r.suggested_name.getD (pathName sourcePath)
  let organizedDir := pathJoin (pathJoin targetDir "organized") category
  let t0 := pathJoin organizedDir suggested
  let target := if fsExists fs t0 then resolveNameConflict fs t0 else t0
  let bp :=
    if cfg.create_backup then
      some (pathJoin (pathJoin (pathJoin targetDir "backup") (clock tick))
        (pathName sourcePath))
    else none
  ({ source_path := sourcePath
     target_path := target
     backup_path := bp
     original_name := pathName sourcePath
     suggested_name := suggested
     category := category
     reason := r.reason.getD "No reason provided"
     confidence := r.confidence.getD (1 / 2)
     operation_type := "move_and_rename" },
   if cfg.create_backup then tick + 1 else tick)

/-- `_execute_operation`: backup (if enabled) then move, with every step
inside one `try`; on an exception the state reached so far is kept, the
operation records `execution_error`, and `False` is returned. -/
def executeOperation (fp : List String) (st : St) (op : Operation) :
    St × Bool × Operation :=
  match op.backup_path with
  | some b =>
      let dirs1 := addDir st.dirs (pathParent b)
      match copy2 fp st.fs op.source_path b with
      | .error e =>
          ({ st with dirs := dirs1 }, false,
           { op with execution_error := some e })
      | .ok fs1 =>
          let dirs2 := addDir dirs1 (pathParent op.target_path)
          match moveFile fp fs1 op.source_path op.target_path with
          | .error e =>
              ({ st with fs := fs1, dirs := dirs2 }, false,
               { op with execution_error := some e })
          | .ok fs2 =>
              ({ st with fs := fs2, dirs := dirs2 }, true, op)
  | none =>
      let dirs2 := addDir st.dirs (pathParent op.target_path)
      match moveFile fp st.fs op.source_path op.target_path with
      | .error e =>
          ({ st with dirs := dirs2 }, false,
           { op with execution_error := some e })
      | .ok fs2 =>
          ({ st with fs := fs2, dirs := dirs2 }, true, op)

/-- `_create_directory_structure`: organized tree, category folders,
others, and (if backups are on) a backup directory stamped with a fresh
`datetime.now()` reading. -/
def createDirectoryStructure (cfg : Config) (clock : Nat → String)
    (targetDir : String) (st : St) : St :=
  let organizedDir := pathJoin targetDir "organized"
  let dirs1 := addDir st.dirs organizedDir
  let dirs2 := cfg.categories.foldl
    (fun ds c => addDir ds (pathJoin organizedDir c)) dirs1
  let dirs3 := addDir dirs2 (pathJoin organizedDir "others")
  if cfg.create_backup then
    { st with
      dirs := addDir dirs3 (pathJoin (pathJoin targetDir "backup")
        (clock st.tick))
      tick := st.tick + 1 }
  else { st with dirs := dirs3 }

/-- The per-category counting dictionary of `_generate_summary`
(insertion-ordered, like a Python dict). -/
def bumpCategory : List (String × Nat) → String → List (String × Nat)
  | [], c => [(c, 1)]
  | (k, n) :: rest, c =>
      if k = c then (k, n + 1) :: rest else (k, n) :: bumpCategory rest c

/-- `category_counts` accumulation over the operations list. -/
def categoryCounts (ops : List Operation) : List (String × Nat) :=
  ops.foldl (fun acc op => bumpCategory acc op.category) []

/-- Python `round(x, 2)` on exact values: round half to even at two
decimal places. -/
def pythonRound2 (q : Rat) : Rat :=
  let x := q * 100
  let n : Int := x.floor
  let r := x - (n : Rat)
  let m : Int :=
    if r < 1 / 2 then n
    else if 1 / 2 < r then n + 1
    else if n % 2 = 0 then n else n + 1
  (m : Rat) / 100

/-- `_generate_summary`: run statistics; consumes one clock reading for
the timestamp field and returns the new tick. -/
def generateSummary (ops : List Operation) (errs : List ErrorEntry)
    (previewMode : Bool) (clock : Nat → String) (tick : Nat) :
    Summary × Nat :=
  let confidences := ops.map (fun op => op.confidence)
  let succ := ops.countP (fun op => op.executed)
  let avg : Rat :=
    if confidences.isEmpty then 0
    else confidences.sum / (confidences.length : Rat)
  ({ total_files := ops.length + errs.length
     successful_operations := succ
     failed_operations := ops.length - succ
     errors := errs.length
     category_distribution := categoryCounts ops
     average_confidence := pythonRound2 avg
     preview_mode := previewMode
     timestamp := clock tick },
   tick + 1)

/-- `_save_operation_log`: build the journal document (one clock reading
for its timestamp, plus a fresh summary recomputation with
`preview_mode=False`), then write it at the well-known path; a faulted
write only prints a warning and leaves the filesystem unchanged. -/
def saveOperationLog (fp : List String) (clock : Nat → String)
    (ops : List Operation) (errs : List ErrorEntry) (targetDir : String)
    (st : St) : St :=
  let ts := clock st.tick
  let p := generateSummary ops errs false clock (st.tick + 1)
  let data : LogData :=
    { timestamp := ts, target_directory := targetDir,
      operations := ops, errors := errs, summary := p.1 }
  let logPath := pathJoin targetDir "file_organization_log.json"
  if logPath ∈ fp then { st with tick := p.2 }
  else { st with fs := fsSet st.fs logPath (.log data), tick := p.2 }

/-- The `for result in analysis_results` loop of `organize_files`:
error-marked inputs go to the errors list; the rest are planned and, in
execute mode, executed, with `executed` set from the executor's return. -/
def organizeLoop (cfg : Config) (clock : Nat → String) (fp : List String)
    (targetDir : String) (previewMode : Bool) :
    List AnalysisResult → St → St × List Operation × List ErrorEntry
  | [], st => (st, [], [])
  | r :: rest, st =>
      match r.error with
      | some e =>
          let p := organizeLoop cfg clock fp targetDir previewMode rest st
          (p.1, p.2.1, { file := r.file_path, error := e } :: p.2.2)
      | none =>
          let q := planFileOperation cfg clock st.fs st.tick r targetDir
          if previewMode then
            let p := organizeLoop cfg clock fp targetDir previewMode rest
              { st with tick := q.2 }
            (p.1, { q.1 with executed := false } :: p.2.1, p.2.2)
          else
            let e := executeOperation fp { st with tick := q.2 } q.1
            let p := organizeLoop cfg clock fp targetDir previewMode rest e.1
            (p.1, { e.2.2 with executed := e.2.1 } :: p.2.1, p.2.2)

/-- `organize_files`: directory structure (execute mode only), the main
loop, the summary, and journal persistence (execute mode only). -/
def organizeFiles (cfg : Config) (clock : Nat → String) (fp : List String)
    (results : List AnalysisResult) (targetDir : String)
    (previewMode : Bool) (st : St) : St × OrganizeResult :=
  let st0 := if previewMode then st
    else createDirectoryStructure cfg clock targetDir st
  let p := organizeLoop cfg clock fp targetDir previewMode results st0
  let s := generateSummary p.2.1 p.2.2 previewMode clock p.1.tick
  let st2 := { p.1 with tick := s.2 }
  let st3 := if previewMode then st2
    else saveOperationLog fp clock p.2.1 p.2.2 targetDir st2
  (st3, { operations := p.2.1, errors := p.2.2, summary := s.1 })

/-! ### Undo engine and stats -/

/-- The condition guarding the backup branch of undo:
`operation.get("backup_path") and Path(...).exists()`. -/
def backupAvailable (fs : Fs) (op : Operation) : Bool :=
  match op.backup_path with
  | some b => fsExists fs b
  | none => false

/-- The target-path fallback branch of one undo iteration. -/
def undoStepTarget (fp : List String) (fs : Fs) (op : Operation) :
    Fs × Nat × Option ErrorEntry :=
  if fsExists fs op.target_path then
    match moveFile fp fs op.target_path op.source_path with
    | .ok fs1 => (fs1, 1, none)
    | .error e => (fs, 0, some { file := op.original_name, error := e })
  else (fs, 0, none)

/-- One iteration of the undo loop for a single journal operation:
skip unexecuted operations; prefer restoring from the backup; fall back
to moving the target back; otherwise do nothing.  A raised move is caught
and recorded as an error entry. -/
def undoStep (fp : List String) (fs : Fs) (op : Operation) :
    Fs × Nat × Option ErrorEntry :=
  if op.executed = false then (fs, 0, none)
  else
    match op.backup_path with
    | some b =>
        if fsExists fs b then
          match moveFile fp fs b op.source_path with
          | .ok fs1 => (fs1, 1, none)
          | .error e => (fs, 0, some { file := op.original_name, error := e })
        else undoStepTarget fp fs op
    | none => undoStepTarget fp fs op

/-- The `for operation in reversed(operations)` loop (the caller passes
the already-reversed list). -/
def undoLoop (fp : List String) :
    List Operation → Fs → Fs × Nat × List ErrorEntry
  | [], fs => (fs, 0, [])
  | op :: rest, fs =>
      let s := undoStep fp fs op
      let p := undoLoop fp rest s.1
      (p.1, s.2.1 + p.2.1,
       match s.2.2 with
       | some e => e :: p.2.2
       | none => p.2.2)

/-- `undo_last_operation`: load the journal from its well-known path;
a missing file or an unparsable file yields a failure result with a
message and no filesystem change; otherwise replay the executed
operations in reverse. -/
def undoLastOperation (fp : List String) (targetDir : String) (st : St) :
    St × UndoResult :=
  let logPath := pathJoin targetDir "file_organization_log.json"
  match fsGet st.fs logPath with
  | none => (st, { success := false, message := "No operation log found" })
  | some (.log data) =>
      let p := undoLoop fp data.operations.reverse st.fs
      ({ st with fs := p.1 },
       { success := true
         restored_files := p.2.1
         errors := p.2.2
         message := "Restored " ++ toString p.2.1 ++ " files" })
  | some _ =>
      (st, { success := false,
             message := "Error during undo operation: journal unreadable" })

/-- `get_organization_stats`: the summary of the persisted journal, or
`none` if the journal is missing or unreadable. -/
def getOrganizationStats (targetDir : String) (st : St) : Option Summary :=
  match fsGet st.fs (pathJoin targetDir "file_organization_log.json") with
  | none => none
  | some (.log data) => some data.summary
  | some _ => none

/-! ### Small filesystem lemmas -/

theorem fsGet_fsRemoveKey (fs : Fs) (k p : String) (h : p ≠ k) :
    fsGet (fsRemoveKey fs k) p = fsGet fs p := by
  induction fs with
  | nil => rfl
  | cons e rest ih =>
      obtain ⟨k1, v1⟩ := e
      have h2 : k ≠ p := fun hh => h hh.symm
      by_cases h1 : k1 = k
      · subst h1
        simp [fsRemoveKey, fsGet, h2, ih]
      · simp [fsRemoveKey, h1, fsGet, ih]

theorem fsGet_fsSet_self (fs : Fs) (k : String) (v : FileContent) :
    fsGet (fsSet fs k v) k = some v := by
  simp [fsSet, fsGet]

theorem fsGet_fsSet_ne (fs : Fs) (k p : String) (v : FileContent)
    (h : p ≠ k) : fsGet (fsSet fs k v) p = fsGet fs p := by
  have h2 : k ≠ p := fun h3 => h h3.symm
  simp [fsSet, fsGet, h2, fsGet_fsRemoveKey fs k p h]

/-! ### Invariants of the organize loop in preview mode -/

theorem organizeLoop_preview (cfg : Config) (clock : Nat → String)
    (fp : List String) (targetDir : String) :
    ∀ (rs : List AnalysisResult) (st : St),
      (organizeLoop cfg clock fp targetDir true rs st).1.fs = st.fs ∧
      (organizeLoop cfg clock fp targetDir true rs st).1.dirs = st.dirs ∧
      ((organizeLoop cfg clock fp targetDir true rs st).2.1.all
        (fun op => !op.executed)) = true ∧
      (organizeLoop cfg clock fp targetDir true rs st).2.1.length +
        (organizeLoop cfg clock fp targetDir true rs st).2.2.length
          = rs.length := by
  intro rs
  induction rs with
  | nil => intro st; simp [organizeLoop]
  | cons r rest ih =>
      intro st
      cases he : r.error with
      | some e =>
          obtain ⟨h1, h2, h3, h4⟩ := ih st
          simp [organizeLoop, he, h1, h2, h3]
          omega
      | none =>
          obtain ⟨h1, h2, h3, h4⟩ :=
            ih { st with tick :=
              (planFileOperation cfg clock st.fs st.tick r targetDir).2 }
          simp [organizeLoop, he, h1, h2, h3]
          omega

/-! ### Concrete scenarios used by the claim theorems -/

/-- A well-formed suggestion record with the given source, category and
suggested name. -/
def mkRes (src cat name : String) : AnalysisResult :=
  { file_path := src, category := some cat, suggested_name := some name,
    confidence := some 1, reason := some "r" }

/-- Configuration with backups enabled and one category. -/
def cfgB : Config := { create_backup := true, categories := ["d"] }

/-- Configuration with backups disabled and one category. -/
def cfgNB : Config := { create_backup := false, categories := ["d"] }

/-- Round-trip scenario: one file at its source path. -/
def stRT : St := { fs := [("/t/a.x", .text "hello")], dirs := [], tick := 0 }

/-- Organize the one-file batch with backups enabled, execute mode. -/
def runRT : St × OrganizeResult :=
  organizeFiles cfgB (fun _ => "T") [] [mkRes "/t/a.x" "d" "a.x"] "/t"
    false stRT

/-- First undo after the round-trip organize. -/
def undoRT : St × UndoResult := undoLastOperation [] "/t" runRT.1

/-- Second undo, immediately re-run on the same journal. -/
def undoRT2 : St × UndoResult := undoLastOperation [] "/t" undoRT.1

/-- Two-file organize under a clock that advances between `now()` calls. -/
def runTicks : St × OrganizeResult :=
  organizeFiles cfgB (fun t => "s" ++ toString t) []
    [mkRes "/t/a.x" "d" "a.x", mkRes "/t/b.x" "d" "b.x"] "/t" false
    { fs := [("/t/a.x", .text "A"), ("/t/b.x", .text "B")], dirs := [],
      tick := 0 }

/-- Conflict scenario: two distinct sources, same category, same
suggested name. -/
def batchConf : List AnalysisResult :=
  [mkRes "/t/p.x" "d" "n.x", mkRes "/t/q.x" "d" "n.x"]

/-- Starting filesystem of the conflict scenario. -/
def stConf : St :=
  { fs := [("/t/p.x", .text "P"), ("/t/q.x", .text "Q")], dirs := [],
    tick := 0 }

/-- Conflict scenario in execute mode. -/
def runConfExec : St × OrganizeResult :=
  organizeFiles cfgNB (fun _ => "T") [] batchConf "/t" false stConf

/-- Conflict scenario in preview mode from the identical start state. -/
def runConfPrev : St × OrganizeResult :=
  organizeFiles cfgNB (fun _ => "T") [] batchConf "/t" true stConf

/-- Fault-isolation scenario: three files, a simulated failure on the
second file's move destination. -/
def runIso : St × OrganizeResult :=
  organizeFiles cfgNB (fun t => "s" ++ toString t) ["/t/organized/d/b.x"]
    [mkRes "/t/a.x" "d" "a.x", mkRes "/t/b.x" "d" "b.x",
     mkRes "/t/c.x" "d" "c.x"] "/t" false
    { fs := [("/t/a.x", .text "A"), ("/t/b.x", .text "B"),
             ("/t/c.x", .text "C")], dirs := [], tick := 0 }

/-- An executed journal operation whose backup and target are both gone
from disk. -/
def opMiss : Operation :=
  { source_path := "/t/a.x", target_path := "/t/organized/d/a.x",
    backup_path := some "/t/backup/T/a.x", original_name := "a.x",
    suggested_name := "a.x", category := "d", reason := "r",
    confidence := 1, operation_type := "move_and_rename",
    executed := true }

/-- A summary value for the hand-written journal below (its content is
irrelevant to undo). -/
def sumMiss : Summary :=
  { total_files := 1, successful_operations := 1, failed_operations := 0,
    errors := 0, category_distribution := [("d", 1)],
    average_confidence := 1, preview_mode := false, timestamp := "T" }

/-- A journal whose single executed operation has neither backup nor
target on disk. -/
def stMiss : St :=
  { fs := [("/t/file_organization_log.json",
      .log { timestamp := "T", target_directory := "/t",
             operations := [opMiss], errors := [], summary := sumMiss })],
    dirs := [], tick := 0 }

/-- Operation for the executor-ordering witness: backups enabled. -/
def opW : Operation :=
  { source_path := "/t/a.x", target_path := "/t/organized/d/a.x",
    backup_path := some "/t/bk/a.x", original_name := "a.x",
    suggested_name := "a.x", category := "d", reason := "r",
    confidence := 1, operation_type := "move_and_rename" }

/-- State for the executor-ordering witness. -/
def stW : St := { fs := [("/t/a.x", .text "A")], dirs := [], tick := 0 }

/-- Fault list for the executor-ordering witness: the move destination
fails. -/
def fpW : List String := ["/t/organized/d/a.x"]

/-- An executed operation whose confidence is not representable in two
decimal places. -/
def opConf : Operation :=
  { source_path := "/t/a.x", target_path := "/t/organized/d/a.x",
    backup_path := none, original_name := "a.x", suggested_name := "a.x",
    category := "d", reason := "r", confidence := 111 / 1000,
    operation_type := "move_and_rename", executed := true }

/-- A target directory whose journal file exists but is unparsable. -/
def stBad : St :=
  { fs := [("/t/file_organization_log.json", .badLog)], dirs := [],
    tick := 0 }

/-! ### Claim theorems -/

/-- Claim C1 (code-bug exhibit).  The claim states that organizing with
backups enabled and then undoing restores the original file inventory
exactly, with no organized copies remaining.  Evaluating the engine on a
one-file batch shows that after undo the source file is back with its
original content, the undo call reports success, and yet the organized
copy is still present at the target path — the inventory is not restored
exactly. -/
theorem undo_leaves_organized_copy :
    fsGet undoRT.1.fs "/t/a.x" = some (.text "hello") ∧
    fsGet undoRT.1.fs "/t/organized/d/a.x" = some (.text "hello") ∧
    undoRT.2.success = true ∧ undoRT.2.restored_files = 1 := by
  decide

/-- Claim C2 (code-bug exhibit).  The claim states that undo leaves the
target path absent and that an immediate second undo reports a per-file
error for the consumed backup.  In fact, after the first undo the target
path still exists, and the second undo silently moves that leftover copy
back to the source path, reporting success with one restored file and an
empty error list. -/
theorem second_undo_silently_restores :
    fsExists undoRT.1.fs "/t/organized/d/a.x" = true ∧
    undoRT2.2.success = true ∧ undoRT2.2.restored_files = 1 ∧
    undoRT2.2.errors = [] ∧
    fsGet undoRT2.1.fs "/t/a.x" = some (.text "hello") := by
  decide

/-- Claim C3 (counterexample).  The claim states that an executed journal
operation with neither backup nor target on disk gets an `ErrorEntry`
keyed by its original name.  Undoing a journal whose single executed
operation has both files missing returns an empty error list (and
success). -/
theorem undo_missing_records_no_error :
    (undoLastOperation [] "/t" stMiss).2.errors = [] ∧
    (undoLastOperation [] "/t" stMiss).2.success = true ∧
    (undoLastOperation [] "/t" stMiss).2.restored_files = 0 := by
  decide

/-- Claim C3 (amended).  During undo, an executed operation with neither
backup nor target on disk is silently skipped: it contributes no error
entry and no restored count, and processing continues with the remaining
operations exactly as if the operation were not there. -/
theorem undo_skips_operation_with_missing_files (fp : List String)
    (fs : Fs) (op : Operation) (rest : List Operation)
    (hx : op.executed = true) (hb : backupAvailable fs op = false)
    (ht : fsExists fs op.target_path = false) :
    undoLoop fp (op :: rest) fs = undoLoop fp rest fs := by
  have hstep : undoStep fp fs op = (fs, 0, none) := by
    unfold undoStep
    cases hbp : op.backup_path with
    | some b =>
        have hfs : fsExists fs b = false := by
          have := hb
          rw [backupAvailable, hbp] at this
          exact this
        simp [hx, hfs, undoStepTarget, ht]
    | none => simp [hx, undoStepTarget, ht]
  simp [undoLoop, hstep]

/-- Claim C3 witness: the amended theorem applied to a concrete executed
operation with both files missing over the empty filesystem. -/
theorem undo_skips_operation_with_missing_files_witness :
    opMiss.executed = true ∧ backupAvailable [] opMiss = false ∧
    fsExists [] opMiss.target_path = false ∧
    undoLoop [] [opMiss] [] = undoLoop [] [] [] :=
  ⟨by decide, by decide, by decide,
   undo_skips_operation_with_missing_files [] [] opMiss []
     (by decide) (by decide) (by decide)⟩

/-- Claim C4 (code-bug exhibit).  The claim states one run-timestamp is
fixed per organize call, so all backups of a batch share the directory
created at the start of the run.  The code re-reads the clock per file:
under a clock that advances between calls, the directory created by
`_create_directory_structure` is stamped with the first reading while the
two planned backup paths are stamped with the second and third readings —
three different directories in one run. -/
theorem backup_timestamp_recomputed_per_file :
    runTicks.2.operations.map (fun op => op.backup_path) =
      [some "/t/backup/s1/a.x", some "/t/backup/s2/b.x"] ∧
    "/t/backup/s0" ∈ runTicks.1.dirs := by
  decide

/-- Claim C5 (counterexample).  The claim states that in preview mode two
same-named suggestions get the bare name and the `_001` name exactly as
in execute mode.  In preview mode no move happens, conflict resolution
consults only on-disk existence, and both operations receive the same
bare target path. -/
theorem preview_conflict_targets_collide :
    runConfPrev.2.operations.map (fun op => op.target_path) =
      ["/t/organized/d/n.x", "/t/organized/d/n.x"] := by
  decide

/-- Claim C5 (amended).  In execute mode, two suggestions mapping to the
same category and name get the bare name and `<stem>_001<ext>` in
processing order (the conflict check observes the interleaved move of the
first file); in preview mode, from the identical start state, the same
on-disk check finds no conflict and both operations receive the bare
name, so preview does not reproduce the execute-mode targets. -/
theorem conflict_resolution_execute_vs_preview :
    runConfExec.2.operations.map (fun op => op.target_path) =
      ["/t/organized/d/n.x", "/t/organized/d/n_001.x"] ∧
    runConfExec.2.operations.map (fun op => op.executed) = [true, true] ∧
    runConfPrev.2.operations.map (fun op => op.target_path) =
      ["/t/organized/d/n.x", "/t/organized/d/n.x"] := by
  decide

/-- Claim C6.  The executor is a total function that never raises: every
outcome either reports success or carries an `execution_error` on the
operation.  A simulated failure on file 2 of a 3-file batch still yields
all three operations, with files 1 and 3 executed and file 2 failed with
its error recorded. -/
theorem executor_captures_failures_and_isolates :
    (∀ (fp : List String) (st : St) (op : Operation),
        (executeOperation fp st op).2.1 = true ∨
        ((executeOperation fp st op).2.2.execution_error).isSome = true) ∧
    runIso.2.operations.map (fun op => op.executed) =
      [true, false, true] ∧
    runIso.2.operations.map (fun op => op.execution_error) =
      [none, some "move failed", none] := by
  refine ⟨?_, by decide, by decide⟩
  intro fp st op
  unfold executeOperation
  cases op.backup_path with
  | none =>
      cases hm : moveFile fp st.fs op.source_path op.target_path <;>
        simp [hm]
  | some b =>
      cases hc : copy2 fp st.fs op.source_path b with
      | error e => simp [hc]
      | ok fs1 =>
          cases hm : moveFile fp fs1 op.source_path op.target_path <;>
            simp [hc, hm]

/-- Claim C7.  With backups enabled the executor copies to the backup
path strictly before the move: if the backup copy fails (missing source
or faulted backup destination) the filesystem is untouched and the
operation fails, so the move was never attempted; if the copy succeeds
but the move fails (faulted target), the safety copy is already present
at the backup path, the source file is still in place, and the operation
fails. -/
theorem backup_copied_before_move (fp : List String) (st : St)
    (op : Operation) (b : String) (hb : op.backup_path = some b) :
    ((fsGet st.fs op.source_path = none ∨ b ∈ fp) →
        (executeOperation fp st op).1.fs = st.fs ∧
        (executeOperation fp st op).2.1 = false) ∧
    (∀ c, fsGet st.fs op.source_path = some c → b ∉ fp →
        op.target_path ∈ fp →
        fsGet (executeOperation fp st op).1.fs b = some c ∧
        fsGet (executeOperation fp st op).1.fs op.source_path = some c ∧
        (executeOperation fp st op).2.1 = false) := by
  constructor
  · intro h
    have hcopy : copy2 fp st.fs op.source_path b = .error "copy failed" := by
      rcases h with hs | hbfp
      · simp [copy2, hs]
      · cases hsv : fsGet st.fs op.source_path with
        | none => simp [copy2, hsv]
        | some c => simp [copy2, hsv, hbfp]
    unfold executeOperation
    simp [hb, hcopy]
  · intro c hc hnb htfp
    have hcopy : copy2 fp st.fs op.source_path b = .ok (fsSet st.fs b c) := by
      simp [copy2, hc, hnb]
    have hsrc1 : fsGet (fsSet st.fs b c) op.source_path = some c := by
      by_cases hsb : op.source_path = b
      · rw [hsb]; exact fsGet_fsSet_self st.fs b c
      · rw [fsGet_fsSet_ne st.fs b op.source_path c hsb, hc]
    have hmove :
        moveFile fp (fsSet st.fs b c) op.source_path op.target_path =
          .error "move failed" := by
      simp [moveFile, hsrc1, htfp]
    unfold executeOperation
    simp [hb, hcopy, hmove, fsGet_fsSet_self, hsrc1]

/-- Claim C7 witness: the ordering theorem instantiated with a one-file
state whose move destination faults; the safety copy is present and the
source untouched. -/
theorem backup_copied_before_move_witness :
    opW.backup_path = some "/t/bk/a.x" ∧
    fsGet (executeOperation fpW stW opW).1.fs "/t/bk/a.x" =
      some (.text "A") ∧
    fsGet (executeOperation fpW stW opW).1.fs opW.source_path =
      some (.text "A") ∧
    (executeOperation fpW stW opW).2.1 = false :=
  ⟨by decide,
   ((backup_copied_before_move fpW stW opW "/t/bk/a.x" (by decide)).2
     (.text "A") (by decide) (by decide) (by decide)).1,
   ((backup_copied_before_move fpW stW opW "/t/bk/a.x" (by decide)).2
     (.text "A") (by decide) (by decide) (by decide)).2.1,
   ((backup_copied_before_move fpW stW opW "/t/bk/a.x" (by decide)).2
     (.text "A") (by decide) (by decide) (by decide)).2.2⟩

/-- Claim C9.  Preview mode performs planning only: the filesystem and
the set of created directories are returned unchanged (so nothing is
moved or copied and no journal is persisted), every returned operation
has `executed = false`, and the result still covers every input — one
operation or error entry per analysis result. -/
theorem preview_mode_is_pure_planning (cfg : Config)
    (clock : Nat → String) (fp : List String)
    (results : List AnalysisResult) (targetDir : String) (st : St) :
    (organizeFiles cfg clock fp results targetDir true st).1.fs = st.fs ∧
    (organizeFiles cfg clock fp results targetDir true st).1.dirs
      = st.dirs ∧
    ((organizeFiles cfg clock fp results targetDir true st).2.operations.all
      (fun op => !op.executed)) = true ∧
    (organizeFiles cfg clock fp results targetDir true st).2.operations.length
      + (organizeFiles cfg clock fp results targetDir true st).2.errors.length
      = results.length := by
  obtain ⟨h1, h2, h3, h4⟩ :=
    organizeLoop_preview cfg clock fp targetDir results st
  unfold organizeFiles
  simp only [if_pos]
  exact ⟨h1, h2, h3, h4⟩

/-- Claim C10.  If the journal file exists but cannot be parsed, undo
returns a failure result with a message, leaving the state (filesystem,
directories, tick) completely unchanged, and the stats readout returns
`none` instead of raising. -/
theorem corrupted_journal_never_crashes (fp : List String)
    (targetDir : String) (st : St) (c : FileContent)
    (hc : fsGet st.fs (pathJoin targetDir "file_organization_log.json")
      = some c)
    (hnl : ∀ d, c ≠ FileContent.log d) :
    (undoLastOperation fp targetDir st).1 = st ∧
    (undoLastOperation fp targetDir st).2.success = false ∧
    (undoLastOperation fp targetDir st).2.message ≠ "" ∧
    getOrganizationStats targetDir st = none := by
  cases c with
  | text s =>
      unfold undoLastOperation getOrganizationStats
      simp [hc]
  | log d => exact absurd rfl (hnl d)
  | badLog =>
      unfold undoLastOperation getOrganizationStats
      simp [hc]

/-- Claim C10 witness: a state whose journal file holds an unparsable
blob. -/
theorem corrupted_journal_never_crashes_witness :
    fsGet stBad.fs (pathJoin "/t" "file_organization_log.json")
      = some .badLog ∧
    (undoLastOperation [] "/t" stBad).1 = stBad ∧
    (undoLastOperation [] "/t" stBad).2.success = false ∧
    getOrganizationStats "/t" stBad = none :=
  ⟨by decide,
   (corrupted_journal_never_crashes [] "/t" stBad .badLog (by decide)
     (fun d h => FileContent.noConfusion h)).1,
   (corrupted_journal_never_crashes [] "/t" stBad .badLog (by decide)
     (fun d h => FileContent.noConfusion h)).2.1,
   (corrupted_journal_never_crashes [] "/t" stBad .badLog (by decide)
     (fun d h => FileContent.noConfusion h)).2.2.2⟩

/-- Bridge between the executable `Rat.floor` and Mathlib's `Int.floor`. -/
theorem ratFloor_eq (q : Rat) : q.floor = ⌊q⌋ := by
  rw [Rat.floor_def', Rat.floor_def]

/-- Evaluation of the two-decimal rounding at the counterexample value. -/
theorem pythonRound2_eval : pythonRound2 (111 / 1000) = 11 / 100 := by
  have hx : (111 / 1000 : Rat) * 100 = 111 / 10 := by norm_num
  have hf : ((111 : Rat) / 10).floor = (11 : Int) := by
    rw [ratFloor_eq, Int.floor_eq_iff]
    norm_num
  unfold pythonRound2
  rw [hx]
  norm_num [hf]

/-- The summary's average over the single-operation counterexample list. -/
theorem avg_eval :
    (generateSummary [opConf] [] false (fun _ => "T") 0).1.average_confidence
      = pythonRound2 (111 / 1000) := by
  unfold generateSummary
  norm_num [opConf]

/-- Claim C8 (counterexample).  The claim states the summary's
`average_confidence` equals the exact arithmetic mean of the operations'
confidences.  For a single operation with confidence 111/1000 the exact
mean is 111/1000, but the summary stores 11/100: the code rounds the mean
to two decimal places. -/
theorem average_confidence_is_rounded :
    (generateSummary [opConf] [] false (fun _ => "T") 0).1.average_confidence
      = 11 / 100 ∧
    ([opConf].map (fun op => op.confidence)).sum
        / (([opConf].length : Nat) : Rat) = 111 / 1000 ∧
    ((11 : Rat) / 100) ≠ 111 / 1000 := by
  refine ⟨?_, by norm_num [opConf], by norm_num⟩
  rw [avg_eval, pythonRound2_eval]

/-- Claim C8 (amended).  For every operations and errors list the summary
satisfies `total_files = |operations| + |errors|`,
`successful_operations = count of executed operations`,
`failed_operations = |operations| - successful_operations`, and
`average_confidence` equals the arithmetic mean of the confidences
rounded half-to-even to two decimal places (`round(x, 2)`), with the mean
taken as 0 when the operations list is empty (no division by zero
occurs). -/
theorem summary_field_equations (ops : List Operation)
    (errs : List ErrorEntry) (pm : Bool) (clock : Nat → String)
    (tick : Nat) :
    (generateSummary ops errs pm clock tick).1.total_files
      = ops.length + errs.length ∧
    (generateSummary ops errs pm clock tick).1.successful_operations
      = ops.countP (fun op => op.executed) ∧
    (generateSummary ops errs pm clock tick).1.failed_operations
      = ops.length - ops.countP (fun op => op.executed) ∧
    (generateSummary ops errs pm clock tick).1.average_confidence
      = pythonRound2 (if ops.isEmpty then 0
          else (ops.map (fun op => op.confidence)).sum
            / (ops.length : Rat)) := by
  refine ⟨rfl, rfl, rfl, ?_⟩
  cases ops with
  | nil => rfl
  | cons o rest =>
      unfold generateSummary
      simp [List.length_map]

end FOA
